import Mathlib

/-!
# GHOST_DropTargetWin32: the Win32 drag-and-drop adapter

A shallow embedding of `intern/ghost/intern/GHOST_DropTargetWin32.cpp`.

* The adapter object, the window it points to and the system event queue it
  pushes into are one explicit state record, passed through every call.
* `DWORD`, `HRESULT`, clipboard formats and interface ids are natural numbers;
  the 32-bit reference count is kept modulo `2 ^ 32`.
* An `IDataObject` is a snapshot of what the dragged object answers during one
  callback: the `HRESULT` of `QueryGetData` per clipboard format and, per
  format the adapter asks for, the content of the global buffer that `GetData`
  hands over (`none` when `GetData` fails).
* Strings are lists of code units without their terminating zero.
* Calls on the data object and on its storage medium are recorded in a call
  log returned next to the result of each helper.
* `malloc` in `getDropDataAsFilenames` is not tested by the source; the
  embedding describes the runs in which those allocations succeed.
-/

namespace GHOST

/-! ## Platform constants (Windows SDK headers) -/

/-- Drop effect `DROPEFFECT_NONE` of `oleidl.h`. -/
abbrev DROPEFFECT_NONE : Nat := 0
/-- Drop effect bit `DROPEFFECT_COPY` of `oleidl.h`. -/
abbrev DROPEFFECT_COPY : Nat := 1
/-- Drop effect bit `DROPEFFECT_MOVE` of `oleidl.h`. -/
abbrev DROPEFFECT_MOVE : Nat := 2
/-- Drop effect bit `DROPEFFECT_LINK` of `oleidl.h`. -/
abbrev DROPEFFECT_LINK : Nat := 4

/-- Clipboard format `CF_TEXT` of `winuser.h`. -/
abbrev CF_TEXT : Nat := 1
/-- Clipboard format `CF_UNICODETEXT` of `winuser.h`. -/
abbrev CF_UNICODETEXT : Nat := 13
/-- Clipboard format `CF_HDROP` of `winuser.h`. -/
abbrev CF_HDROP : Nat := 15

/-- Length of the path buffer, `MAX_PATH` of `minwindef.h`. -/
abbrev MAX_PATH : Nat := 260

/-- Result code `S_OK`. -/
abbrev S_OK : Nat := 0
/-- Result code `E_INVALIDARG`. -/
abbrev E_INVALIDARG : Nat := 0x80070057
/-- Result code `E_NOINTERFACE`. -/
abbrev E_NOINTERFACE : Nat := 0x80004002

/-- Interface id `IID_IUnknown`, `00000000-0000-0000-C000-000000000046`, read as
one 128-bit number. -/
abbrev IID_IUnknown : Nat := 0x0000000000000000C000000000000046
/-- Interface id `IID_IDropTarget`, `00000122-0000-0000-C000-000000000046`, read
as one 128-bit number. -/
abbrev IID_IDropTarget : Nat := 0x0000012200000000C000000000000046

/-- Number of values of the 32-bit reference counter. -/
abbrev ULONG_SIZE : Nat := 2 ^ 32

/-! ## Data model -/

/-- Payload kinds, `GHOST_TDragnDropTypes` of `GHOST_Types.h`. -/
inductive GHOST_TDragnDropTypes where
  | GHOST_kDragnDropTypeUnknown
  | GHOST_kDragnDropTypeFilenames
  | GHOST_kDragnDropTypeString
  | GHOST_kDragnDropTypeBitmap
  deriving DecidableEq, Repr

/-- Drag-and-drop event kinds among `GHOST_TEventType` of `GHOST_Types.h`. -/
inductive GHOST_TEventType where
  | GHOST_kEventDraggingEntered
  | GHOST_kEventDraggingUpdated
  | GHOST_kEventDraggingExited
  | GHOST_kEventDraggingDropDone
  deriving DecidableEq, Repr

open GHOST_TDragnDropTypes GHOST_TEventType

/-- The struct `GHOST_TStringArray`: `strings` is the allocated slot array, a
slot is `none` until a string pointer is stored in it. -/
structure GHOST_TStringArray where
  count : Nat
  strings : List (Option (List Nat))
  deriving DecidableEq, Repr

/-- What a non-null `void *` payload points to: a `char *` string or a
`GHOST_TStringArray`. A null payload is `none` of `Option GHOST_TDropData`. -/
inductive GHOST_TDropData where
  | string (s : List Nat)
  | stringArray (a : GHOST_TStringArray)
  deriving DecidableEq, Repr

/-- The struct `POINTL`. -/
structure POINTL where
  x : Int
  y : Int
  deriving DecidableEq, Repr

/-- The arguments of one `pushDragDropEvent` call, as stored in the queue. -/
structure GHOST_EventDragnDrop where
  eventType : GHOST_TEventType
  draggedObjectType : GHOST_TDragnDropTypes
  window : Nat
  mouseX : Int
  mouseY : Int
  data : Option GHOST_TDropData
  deriving DecidableEq, Repr

/-- The target window: its handle and its accept flag. -/
structure GHOST_WindowWin32 where
  hWnd : Nat
  m_canAcceptDragOperation : Bool
  deriving DecidableEq, Repr

/-- Modelled from the spec: the setter `setAcceptDragOperation` of the window
class, which is not part of this file ("target window exposes
setMayAcceptDrop(bool) and mayAcceptDrop() -> bool"). -/
def GHOST_WindowWin32.setAcceptDragOperation (w : GHOST_WindowWin32) (canAccept : Bool) :
    GHOST_WindowWin32 :=
  { w with m_canAcceptDragOperation := canAccept }

/-- Modelled from the spec: the getter `canAcceptDragOperation` of the window
class, which is not part of this file. -/
def GHOST_WindowWin32.canAcceptDragOperation (w : GHOST_WindowWin32) : Bool :=
  w.m_canAcceptDragOperation

/-- Handle accessor `getHWND` of the window. -/
def GHOST_WindowWin32.getHWND (w : GHOST_WindowWin32) : Nat := w.hWnd

/-- The system object, reduced to its event queue (oldest event first). -/
structure GHOST_SystemWin32 where
  events : List GHOST_EventDragnDrop
  deriving DecidableEq, Repr

/-- Modelled from the spec: `pushDragDropEvent` of the system class, which is
not part of this file ("pushes exactly one event into the external event
queue", each event carrying kind, payload type, window, x, y and payload). -/
def GHOST_SystemWin32.pushDragDropEvent (sys : GHOST_SystemWin32)
    (eventType : GHOST_TEventType) (draggedObjectType : GHOST_TDragnDropTypes)
    (window : GHOST_WindowWin32) (mouseX mouseY : Int) (data : Option GHOST_TDropData) :
    GHOST_SystemWin32 :=
  { events := sys.events ++ [⟨eventType, draggedObjectType, window.hWnd, mouseX, mouseY, data⟩] }

/-- The adapter together with the objects it points to. `deleted` counts the
executions of `delete this`. -/
structure GHOST_DropTargetWin32 where
  m_window : GHOST_WindowWin32
  m_system : GHOST_SystemWin32
  m_cRef : Nat
  m_hWnd : Nat
  m_draggedObjectType : GHOST_TDragnDropTypes
  deleted : Nat
  deriving DecidableEq, Repr

/-- The dragged data object as seen during one callback. -/
structure IDataObject where
  /-- Result code of `QueryGetData` for a `FORMATETC` with this `cfFormat`. -/
  QueryGetData : Nat → Nat
  /-- Paths in the buffer handed over by `GetData` for `CF_HDROP`. -/
  GetData_HDROP : Option (List (List Nat))
  /-- Wide string in the buffer handed over by `GetData` for `CF_UNICODETEXT`. -/
  GetData_UNICODETEXT : Option (List Nat)
  /-- Narrow string in the buffer handed over by `GetData` for `CF_TEXT`. -/
  GetData_TEXT : Option (List Nat)

/-- Calls on the data object and on its storage medium. -/
inductive OsCall where
  | QueryGetData (cfFormat : Nat)
  | GetData (cfFormat : Nat)
  | GlobalLock
  | GlobalUnlock
  | ReleaseStgMedium
  deriving DecidableEq, Repr

/-- Helpers of the platform that the adapter calls and does not define. -/
structure Platform where
  /-- Conversion `alloc_utf_8_from_16` of `utfconv.h`; `none` is a null result. -/
  alloc_utf_8_from_16 : List Nat → Option (List Nat)
  /-- Whether `malloc` of this many bytes returns a buffer. -/
  malloc : Nat → Bool

/-- Shell call `DragQueryFileW(hdrop, 0xFFFFFFFF, NULL, 0)`: the number of paths. -/
def DragQueryFileW_count (hdrop : List (List Nat)) : Nat := hdrop.length

/-- Shell call `DragQueryFileW(hdrop, iFile, lpszFile, cch)`: copies path `iFile`
into a buffer of `cch` characters, cut to `cch - 1` characters to leave room for
the terminator, and returns the number of characters copied together with the
buffer content; an index out of range copies nothing. -/
def DragQueryFileW (hdrop : List (List Nat)) (iFile : Nat) (cch : Nat) : Nat × List Nat :=
  match hdrop[iFile]? with
  | none => (0, [])
  | some path => ((path.take (cch - 1)).length, path.take (cch - 1))

namespace GHOST_DropTargetWin32

/-! ## The adapter -/

/-- Constructor. -/
def new (window : GHOST_WindowWin32) (system : GHOST_SystemWin32) : GHOST_DropTargetWin32 :=
  { m_window := window
    m_system := system
    m_cRef := 1
    m_hWnd := window.getHWND
    m_draggedObjectType := GHOST_kDragnDropTypeUnknown
    deleted := 0 }

/-- Increment `IUnknown::AddRef`: the new count and the state. -/
def AddRef (self : GHOST_DropTargetWin32) : Nat × GHOST_DropTargetWin32 :=
  let refs := (self.m_cRef + 1) % ULONG_SIZE
  (refs, { self with m_cRef := refs })

/-- Decrement `IUnknown::Release`: the returned count and the state. -/
def Release (self : GHOST_DropTargetWin32) : Nat × GHOST_DropTargetWin32 :=
  let refs := (self.m_cRef + ULONG_SIZE - 1) % ULONG_SIZE
  if refs = 0 then
    (0, { self with m_cRef := refs, deleted := self.deleted + 1 })
  else
    (refs, { self with m_cRef := refs })

/-- What a `void *` stored in the output slot of `QueryInterface` points to. -/
inductive VoidPtr where
  | null
  | this
  | other (address : Nat)
  deriving DecidableEq, Repr

/-- Capability query `IUnknown::QueryInterface`. The argument `ppvObj` is
`none` for a null slot pointer and `some v` for a slot currently holding `v`;
the result is the code, the slot after the call and the state. -/
def QueryInterface (self : GHOST_DropTargetWin32) (riid : Nat) (ppvObj : Option VoidPtr) :
    Nat × Option VoidPtr × GHOST_DropTargetWin32 :=
  match ppvObj with
  | none => (E_INVALIDARG, none, self)
  | some _ =>
    if riid = IID_IUnknown ∨ riid = IID_IDropTarget then
      (S_OK, some VoidPtr.this, (AddRef self).2)
    else
      (E_NOINTERFACE, some VoidPtr.null, self)

/-- Helper `allowedDropEffect`. -/
def allowedDropEffect (dwAllowed : Nat) : Nat :=
  if dwAllowed &&& DROPEFFECT_COPY ≠ 0 then DROPEFFECT_COPY else DROPEFFECT_NONE

/-- Helper `getGhostType`: the type and the calls made on the data object. -/
def getGhostType (pDataObject : IDataObject) : GHOST_TDragnDropTypes × List OsCall :=
  if pDataObject.QueryGetData CF_TEXT = S_OK then
    (GHOST_kDragnDropTypeString, [OsCall.QueryGetData CF_TEXT])
  else if pDataObject.QueryGetData CF_HDROP = S_OK then
    (GHOST_kDragnDropTypeFilenames, [OsCall.QueryGetData CF_TEXT, OsCall.QueryGetData CF_HDROP])
  else
    (GHOST_kDragnDropTypeUnknown, [OsCall.QueryGetData CF_TEXT, OsCall.QueryGetData CF_HDROP])

/-- The `for` loop of `getDropDataAsFilenames`: `remaining` iterations are
left, the next index is `nfile`. -/
def getDropDataAsFilenames_loop (P : Platform) (hdrop : List (List Nat)) :
    (remaining : Nat) → (nfile : Nat) → (strArray : GHOST_TStringArray) → (nvalid : Nat) →
    GHOST_TStringArray
  | 0, _, strArray, _ => strArray
  | remaining + 1, nfile, strArray, nvalid =>
    let q := DragQueryFileW hdrop nfile MAX_PATH
    if q.1 > 0 then
      match P.alloc_utf_8_from_16 q.2 with
      | none => getDropDataAsFilenames_loop P hdrop remaining (nfile + 1) strArray nvalid
      | some temp_path =>
        getDropDataAsFilenames_loop P hdrop remaining (nfile + 1)
          { strings := strArray.strings.set nvalid (some temp_path), count := nvalid + 1 }
          (nvalid + 1)
    else
      getDropDataAsFilenames_loop P hdrop remaining (nfile + 1) strArray nvalid

/-- Helper `getDropDataAsFilenames`: the payload and the calls made. -/
def getDropDataAsFilenames (P : Platform) (pDataObject : IDataObject) :
    Option GHOST_TDropData × List OsCall :=
  if pDataObject.QueryGetData CF_HDROP = S_OK then
    match pDataObject.GetData_HDROP with
    | some hdrop =>
      let totfiles := DragQueryFileW_count hdrop
      if totfiles = 0 then
        (none, [OsCall.QueryGetData CF_HDROP, OsCall.GetData CF_HDROP, OsCall.GlobalLock,
          OsCall.GlobalUnlock])
      else
        let strArray : GHOST_TStringArray := { count := 0, strings := List.replicate totfiles none }
        (some (GHOST_TDropData.stringArray
            (getDropDataAsFilenames_loop P hdrop totfiles 0 strArray 0)),
          [OsCall.QueryGetData CF_HDROP, OsCall.GetData CF_HDROP, OsCall.GlobalLock,
            OsCall.GlobalUnlock, OsCall.ReleaseStgMedium])
    | none => (none, [OsCall.QueryGetData CF_HDROP, OsCall.GetData CF_HDROP])
  else
    (none, [OsCall.QueryGetData CF_HDROP])

/-- The second half of `getDropDataAsString`: the `CF_TEXT` copy. -/
def getDropDataAsString_text (P : Platform) (pDataObject : IDataObject) :
    Option GHOST_TDropData × List OsCall :=
  if pDataObject.QueryGetData CF_TEXT = S_OK then
    match pDataObject.GetData_TEXT with
    | some str =>
      if P.malloc (str.length + 1) then
        (some (GHOST_TDropData.string str),
          [OsCall.QueryGetData CF_TEXT, OsCall.GetData CF_TEXT, OsCall.GlobalLock,
            OsCall.GlobalUnlock, OsCall.ReleaseStgMedium])
      else
        (none, [OsCall.QueryGetData CF_TEXT, OsCall.GetData CF_TEXT, OsCall.GlobalLock,
          OsCall.GlobalUnlock])
    | none => (none, [OsCall.QueryGetData CF_TEXT, OsCall.GetData CF_TEXT])
  else
    (none, [OsCall.QueryGetData CF_TEXT])

/-- Helper `getDropDataAsString`: the payload and the calls made. -/
def getDropDataAsString (P : Platform) (pDataObject : IDataObject) :
    Option GHOST_TDropData × List OsCall :=
  if pDataObject.QueryGetData CF_UNICODETEXT = S_OK then
    match pDataObject.GetData_UNICODETEXT with
    | some wstr =>
      match P.alloc_utf_8_from_16 wstr with
      | none =>
        (none, [OsCall.QueryGetData CF_UNICODETEXT, OsCall.GetData CF_UNICODETEXT,
          OsCall.GlobalLock, OsCall.GlobalUnlock])
      | some tmp_string =>
        (some (GHOST_TDropData.string tmp_string),
          [OsCall.QueryGetData CF_UNICODETEXT, OsCall.GetData CF_UNICODETEXT,
            OsCall.GlobalLock, OsCall.GlobalUnlock, OsCall.ReleaseStgMedium])
    | none =>
      ((getDropDataAsString_text P pDataObject).1,
        [OsCall.QueryGetData CF_UNICODETEXT, OsCall.GetData CF_UNICODETEXT] ++
          (getDropDataAsString_text P pDataObject).2)
  else
    ((getDropDataAsString_text P pDataObject).1,
      [OsCall.QueryGetData CF_UNICODETEXT] ++ (getDropDataAsString_text P pDataObject).2)

/-- Helper `getGhostData`: the payload and the calls made. -/
def getGhostData (P : Platform) (pDataObject : IDataObject) :
    Option GHOST_TDropData × List OsCall :=
  let t := getGhostType pDataObject
  match t.1 with
  | GHOST_kDragnDropTypeFilenames =>
    ((getDropDataAsFilenames P pDataObject).1, t.2 ++ (getDropDataAsFilenames P pDataObject).2)
  | GHOST_kDragnDropTypeString =>
    ((getDropDataAsString P pDataObject).1, t.2 ++ (getDropDataAsString P pDataObject).2)
  | GHOST_kDragnDropTypeBitmap => (none, t.2)
  | GHOST_kDragnDropTypeUnknown => (none, t.2)

/-- What a phase callback hands back: the result code, the value left in
`*pdwEffect` and the state. -/
structure PhaseResult where
  hr : Nat
  dwEffect : Nat
  target : GHOST_DropTargetWin32

/-- Callback `IDropTarget::DragEnter`. -/
def DragEnter (self : GHOST_DropTargetWin32) (pDataObject : IDataObject) (_grfKeyState : Nat)
    (pt : POINTL) (_dwEffect : Nat) : PhaseResult :=
  let window := self.m_window.setAcceptDragOperation true
  let draggedObjectType := (getGhostType pDataObject).1
  { hr := S_OK
    dwEffect := DROPEFFECT_NONE
    target :=
      { self with
        m_window := window
        m_draggedObjectType := draggedObjectType
        m_system := self.m_system.pushDragDropEvent GHOST_kEventDraggingEntered
          draggedObjectType window pt.x pt.y none } }

/-- Callback `IDropTarget::DragOver`. -/
def DragOver (self : GHOST_DropTargetWin32) (_grfKeyState : Nat) (pt : POINTL) (dwEffect : Nat) :
    PhaseResult :=
  { hr := S_OK
    dwEffect :=
      if self.m_window.canAcceptDragOperation then allowedDropEffect dwEffect
      else DROPEFFECT_NONE
    target :=
      { self with
        m_system := self.m_system.pushDragDropEvent GHOST_kEventDraggingUpdated
          self.m_draggedObjectType self.m_window pt.x pt.y none } }

/-- Callback `IDropTarget::DragLeave`; `*pdwEffect` is not an argument, the
field `dwEffect` of the result is `DROPEFFECT_NONE`. -/
def DragLeave (self : GHOST_DropTargetWin32) : PhaseResult :=
  { hr := S_OK
    dwEffect := DROPEFFECT_NONE
    target :=
      { self with
        m_system := self.m_system.pushDragDropEvent GHOST_kEventDraggingExited
          self.m_draggedObjectType self.m_window 0 0 none
        m_draggedObjectType := GHOST_kDragnDropTypeUnknown } }

/-- Callback `IDropTarget::Drop`. -/
def Drop (P : Platform) (self : GHOST_DropTargetWin32) (pDataObject : IDataObject)
    (_grfKeyState : Nat) (pt : POINTL) (dwEffect : Nat) : PhaseResult :=
  let data := (getGhostData P pDataObject).1
  { hr := S_OK
    dwEffect :=
      if self.m_window.canAcceptDragOperation then allowedDropEffect dwEffect
      else DROPEFFECT_NONE
    target :=
      { self with
        m_system :=
          match data with
          | some d =>
            self.m_system.pushDragDropEvent GHOST_kEventDraggingDropDone
              self.m_draggedObjectType self.m_window pt.x pt.y (some d)
          | none => self.m_system
        m_draggedObjectType := GHOST_kDragnDropTypeUnknown } }

/-- A run of `n` consecutive `AddRef` calls: the returned counts, in call
order, and the state. -/
def AddRefs : Nat → GHOST_DropTargetWin32 → List Nat × GHOST_DropTargetWin32
  | 0, self => ([], self)
  | n + 1, self =>
    ((AddRef self).1 :: (AddRefs n (AddRef self).2).1, (AddRefs n (AddRef self).2).2)

/-- A run of `n` consecutive `Release` calls: the returned counts, in call
order, and the state. -/
def Releases : Nat → GHOST_DropTargetWin32 → List Nat × GHOST_DropTargetWin32
  | 0, self => ([], self)
  | n + 1, self =>
    ((Release self).1 :: (Releases n (Release self).2).1, (Releases n (Release self).2).2)

end GHOST_DropTargetWin32

open GHOST_DropTargetWin32

/-! ## Gestures

The system calls `DragEnter`, then `DragOver` any number of times, then
`DragLeave` or `Drop`. Between two calls the application, which handles the
pushed events, may set the accept flag of the window; each later call of a
gesture therefore comes with the value the flag has when the call arrives. -/

/-- The accept flag of the target window as the application left it. -/
def flagSetByApplication (self : GHOST_DropTargetWin32) (canAccept : Bool) :
    GHOST_DropTargetWin32 :=
  { self with m_window := self.m_window.setAcceptDragOperation canAccept }

/-- The arguments of one `DragOver` call and the accept flag at the call. -/
structure OverCall where
  canAccept : Bool
  grfKeyState : Nat
  pt : POINTL
  dwEffect : Nat

/-- The call that ends a gesture. -/
inductive TerminalCall where
  | leave
  | drop (canAccept : Bool) (pDataObject : IDataObject) (grfKeyState : Nat) (pt : POINTL)
      (dwEffect : Nat)

/-- One gesture: the arguments of `DragEnter`, the `DragOver` calls and the
terminal call. -/
structure Gesture where
  pDataObject : IDataObject
  grfKeyState : Nat
  pt : POINTL
  dwEffect : Nat
  overs : List OverCall
  terminal : TerminalCall

/-- The `DragOver` calls of a gesture, in order. -/
def runOvers (self : GHOST_DropTargetWin32) : List OverCall → GHOST_DropTargetWin32
  | [] => self
  | c :: cs =>
    runOvers (DragOver (flagSetByApplication self c.canAccept) c.grfKeyState c.pt c.dwEffect).target
      cs

/-- The terminal call of a gesture. -/
def runTerminal (P : Platform) (self : GHOST_DropTargetWin32) :
    TerminalCall → GHOST_DropTargetWin32
  | TerminalCall.leave => (DragLeave self).target
  | TerminalCall.drop canAccept pDataObject grfKeyState pt dwEffect =>
    (Drop P (flagSetByApplication self canAccept) pDataObject grfKeyState pt dwEffect).target

/-- A whole gesture. -/
def runGesture (P : Platform) (self : GHOST_DropTargetWin32) (g : Gesture) :
    GHOST_DropTargetWin32 :=
  runTerminal P (runOvers (DragEnter self g.pDataObject g.grfKeyState g.pt g.dwEffect).target g.overs)
    g.terminal

/-- A sequence of gestures on the same adapter. -/
def runGestures (P : Platform) (self : GHOST_DropTargetWin32) :
    List Gesture → GHOST_DropTargetWin32
  | [] => self
  | g :: gs => runGestures P (runGesture P self g) gs

/-- The events in the queue of `after` that were not yet in the queue of
`before`. -/
def pushedBetween (before after : GHOST_DropTargetWin32) : List GHOST_EventDragnDrop :=
  after.m_system.events.drop before.m_system.events.length

/-- The events a gesture pushes. -/
def gestureEvents (P : Platform) (self : GHOST_DropTargetWin32) (g : Gesture) :
    List GHOST_EventDragnDrop :=
  pushedBetween self (runGesture P self g)

/-- Number of `GHOST_kEventDraggingEntered` events in a list. -/
def countEntered (evs : List GHOST_EventDragnDrop) : Nat :=
  evs.countP (fun e => decide (e.eventType = GHOST_kEventDraggingEntered))

/-- Number of terminal events (`GHOST_kEventDraggingExited` or
`GHOST_kEventDraggingDropDone`) in a list. -/
def countTerminal (evs : List GHOST_EventDragnDrop) : Nat :=
  evs.countP (fun e => decide (e.eventType = GHOST_kEventDraggingExited ∨
    e.eventType = GHOST_kEventDraggingDropDone))

/-- Whether the terminal call of a gesture is a `DragLeave` or a `Drop` whose
extraction returns a payload. -/
def terminalPushes (P : Platform) : TerminalCall → Bool
  | TerminalCall.leave => true
  | TerminalCall.drop _ pDataObject _ _ _ => (getGhostData P pDataObject).1.isSome

/-! ## Sample inputs -/

/-- Result code `DV_E_FORMATETC`, the answer of a data object to a format it
does not offer. -/
abbrev DV_E_FORMATETC : Nat := 0x80040064

/-- A data object that offers no format. -/
def noFormats : IDataObject :=
  { QueryGetData := fun _ => DV_E_FORMATETC
    GetData_HDROP := none
    GetData_UNICODETEXT := none
    GetData_TEXT := none }

/-- A data object that offers the file list `paths` as `CF_HDROP` and nothing
else. -/
def fileDrop (paths : List (List Nat)) : IDataObject :=
  { QueryGetData := fun cf => if cf = CF_HDROP then S_OK else DV_E_FORMATETC
    GetData_HDROP := some paths
    GetData_UNICODETEXT := none
    GetData_TEXT := none }

/-- A data object that offers the text `s` as `CF_TEXT` and as
`CF_UNICODETEXT`, and the file list `paths` as `CF_HDROP`. -/
def textAndFileDrop (s : List Nat) (paths : List (List Nat)) : IDataObject :=
  { QueryGetData := fun cf =>
      if cf = CF_TEXT ∨ cf = CF_UNICODETEXT ∨ cf = CF_HDROP then S_OK else DV_E_FORMATETC
    GetData_HDROP := some paths
    GetData_UNICODETEXT := some s
    GetData_TEXT := some s }

/-- A platform whose conversion accepts the strings of 7-bit characters, which
the conversion from UTF-16 to UTF-8 maps to themselves, and no other string,
and whose `malloc` succeeds. -/
def asciiPlatform : Platform :=
  { alloc_utf_8_from_16 := fun w => if w.all (fun c => decide (c < 128)) then some w else none
    malloc := fun _ => true }

/-- A window with handle 7 that does not accept drags yet. -/
def sampleWindow : GHOST_WindowWin32 := { hWnd := 7, m_canAcceptDragOperation := false }

/-- A system with an empty event queue. -/
def sampleSystem : GHOST_SystemWin32 := { events := [] }

/-- A newly constructed adapter on the sample window. -/
def sampleTarget : GHOST_DropTargetWin32 := GHOST_DropTargetWin32.new sampleWindow sampleSystem

/-- A gesture whose data object offers no format: `DragEnter`, no `DragOver`,
then `Drop` with the copy effect requested. -/
def unknownDropGesture : Gesture :=
  { pDataObject := noFormats
    grfKeyState := 0
    pt := { x := 10, y := 20 }
    dwEffect := DROPEFFECT_COPY
    overs := []
    terminal := TerminalCall.drop true noFormats 0 { x := 10, y := 20 } DROPEFFECT_COPY }

/-- A gesture that drags the one file `a`: `DragEnter`, two `DragOver` calls,
then `Drop`. -/
def fileDropGesture : Gesture :=
  { pDataObject := fileDrop [[97]]
    grfKeyState := 0
    pt := { x := 1, y := 2 }
    dwEffect := DROPEFFECT_COPY
    overs := [⟨true, 0, { x := 3, y := 4 }, DROPEFFECT_COPY⟩,
      ⟨false, 0, { x := 5, y := 6 }, DROPEFFECT_COPY⟩]
    terminal := TerminalCall.drop true (fileDrop [[97]]) 0 { x := 5, y := 6 } DROPEFFECT_COPY }

/-! ## Effect resolution -/

theorem allowedDropEffect_eq (m : Nat) :
    allowedDropEffect m = if m.testBit 0 = true then DROPEFFECT_COPY else DROPEFFECT_NONE := by
  unfold allowedDropEffect
  have h : m &&& DROPEFFECT_COPY = m % 2 := Nat.and_one_is_mod m
  rw [h, Nat.testBit_zero]
  rcases Nat.mod_two_eq_zero_or_one m with h0 | h1
  · simp [h0]
  · simp [h1]

/-- C1: for every requested mask `m` and every accept state of the window, the
effect left in `*pdwEffect` by `DragOver` and by `Drop` is `DROPEFFECT_COPY`
exactly when bit 0 (the copy bit) of `m` is set and the window accepts the drag
at the call, and `DROPEFFECT_NONE` in every other case; it is never the move or
the link effect. -/
theorem C1_effect_resolution (P : Platform) (self : GHOST_DropTargetWin32)
    (pDataObject : IDataObject) (grfKeyState : Nat) (pt : POINTL) (m : Nat) :
    ((DragOver self grfKeyState pt m).dwEffect = DROPEFFECT_COPY ↔
        (m.testBit 0 = true ∧ self.m_window.canAcceptDragOperation = true)) ∧
      ((DragOver self grfKeyState pt m).dwEffect = DROPEFFECT_NONE ↔
        ¬ (m.testBit 0 = true ∧ self.m_window.canAcceptDragOperation = true)) ∧
      ((Drop P self pDataObject grfKeyState pt m).dwEffect = DROPEFFECT_COPY ↔
        (m.testBit 0 = true ∧ self.m_window.canAcceptDragOperation = true)) ∧
      ((Drop P self pDataObject grfKeyState pt m).dwEffect = DROPEFFECT_NONE ↔
        ¬ (m.testBit 0 = true ∧ self.m_window.canAcceptDragOperation = true)) ∧
      (DragOver self grfKeyState pt m).dwEffect ≠ DROPEFFECT_MOVE ∧
      (DragOver self grfKeyState pt m).dwEffect ≠ DROPEFFECT_LINK ∧
      (Drop P self pDataObject grfKeyState pt m).dwEffect ≠ DROPEFFECT_MOVE ∧
      (Drop P self pDataObject grfKeyState pt m).dwEffect ≠ DROPEFFECT_LINK := by
  simp only [DragOver, Drop, allowedDropEffect_eq]
  cases self.m_window.canAcceptDragOperation <;> cases m.testBit 0 <;> simp

/-! ## Drop -/

/-- C2: a `Drop` call appends to the event queue nothing when `getGhostData`
returns null and exactly one `GHOST_kEventDraggingDropDone` event when it
returns a payload, that event carrying the stored payload type, the target
window, the cursor position and the payload; and the effect left in
`*pdwEffect` is the same for every data object, so it does not depend on the
extraction. -/
theorem C2_drop_event_iff_payload (P : Platform) (self : GHOST_DropTargetWin32)
    (pDataObject : IDataObject) (grfKeyState : Nat) (pt : POINTL) (dwEffect : Nat) :
    (Drop P self pDataObject grfKeyState pt dwEffect).target.m_system.events =
        self.m_system.events ++
          (match (getGhostData P pDataObject).1 with
            | none => []
            | some d =>
              [{ eventType := GHOST_kEventDraggingDropDone
                 draggedObjectType := self.m_draggedObjectType
                 window := self.m_window.hWnd
                 mouseX := pt.x
                 mouseY := pt.y
                 data := some d }]) ∧
      ((∃ e, e ∈ pushedBetween self (Drop P self pDataObject grfKeyState pt dwEffect).target ∧
          e.eventType = GHOST_kEventDraggingDropDone) ↔
        (getGhostData P pDataObject).1 ≠ none) ∧
      (∀ other : IDataObject,
        (Drop P self other grfKeyState pt dwEffect).dwEffect =
          (Drop P self pDataObject grfKeyState pt dwEffect).dwEffect) := by
  refine ⟨?_, ?_, ?_⟩
  · unfold Drop
    cases h : (getGhostData P pDataObject).1 <;>
      simp [GHOST_SystemWin32.pushDragDropEvent]
  · unfold pushedBetween Drop
    cases h : (getGhostData P pDataObject).1 <;>
      simp [GHOST_SystemWin32.pushDragDropEvent]
  · intro other
    rfl

/-! ## Classification -/

/-- C5: `getGhostType` returns the string type when `CF_TEXT` is offered,
whether or not `CF_HDROP` is offered too, and then asks for `CF_TEXT` only,
never for `CF_HDROP`; it returns the file-names type when `CF_TEXT` is not
offered and `CF_HDROP` is; it returns the unknown type when neither is
offered. -/
theorem C5_getGhostType_priority (pDataObject : IDataObject) :
    (pDataObject.QueryGetData CF_TEXT = S_OK →
        (getGhostType pDataObject).1 = GHOST_kDragnDropTypeString ∧
          (getGhostType pDataObject).2 = [OsCall.QueryGetData CF_TEXT] ∧
          OsCall.QueryGetData CF_HDROP ∉ (getGhostType pDataObject).2) ∧
      (pDataObject.QueryGetData CF_TEXT ≠ S_OK → pDataObject.QueryGetData CF_HDROP = S_OK →
        (getGhostType pDataObject).1 = GHOST_kDragnDropTypeFilenames) ∧
      (pDataObject.QueryGetData CF_TEXT ≠ S_OK → pDataObject.QueryGetData CF_HDROP ≠ S_OK →
        (getGhostType pDataObject).1 = GHOST_kDragnDropTypeUnknown) := by
  refine ⟨?_, ?_, ?_⟩
  · intro h
    simp [getGhostType, h]
  · intro h1 h2
    simp [getGhostType, h1, h2]
  · intro h1 h2
    simp [getGhostType, h1, h2]

/-- C5 at concrete inputs: text and file list offered together give the string
type without a `CF_HDROP` query, a file list alone gives the file-names type,
no format gives the unknown type. -/
theorem C5_getGhostType_priority_witness :
    ((getGhostType (textAndFileDrop [104, 105] [[97]])).1 = GHOST_kDragnDropTypeString ∧
        (getGhostType (textAndFileDrop [104, 105] [[97]])).2 = [OsCall.QueryGetData CF_TEXT] ∧
        OsCall.QueryGetData CF_HDROP ∉ (getGhostType (textAndFileDrop [104, 105] [[97]])).2) ∧
      (getGhostType (fileDrop [[97]])).1 = GHOST_kDragnDropTypeFilenames ∧
      (getGhostType noFormats).1 = GHOST_kDragnDropTypeUnknown :=
  ⟨(C5_getGhostType_priority (textAndFileDrop [104, 105] [[97]])).1 (by decide),
    (C5_getGhostType_priority (fileDrop [[97]])).2.1 (by decide) (by decide),
    (C5_getGhostType_priority noFormats).2.2 (by decide) (by decide)⟩

/-! ## Capability query -/

/-- C8: `QueryInterface` with a null slot pointer returns `E_INVALIDARG` and
changes nothing. With a slot, it returns `S_OK` exactly when the id is
`IID_IUnknown` or `IID_IDropTarget`; it then stores the adapter in the slot and
does one `AddRef`, which adds one to the 32-bit count (one more than before
whenever the count is below its largest value); for every other id it returns
`E_NOINTERFACE`, stores null and changes nothing. -/
theorem C8_QueryInterface (self : GHOST_DropTargetWin32) (riid : Nat) (slot : VoidPtr) :
    QueryInterface self riid none = (E_INVALIDARG, none, self) ∧
      ((QueryInterface self riid (some slot)).1 = S_OK ↔
        (riid = IID_IUnknown ∨ riid = IID_IDropTarget)) ∧
      ((riid = IID_IUnknown ∨ riid = IID_IDropTarget) →
        (QueryInterface self riid (some slot)).2.1 = some VoidPtr.this ∧
          (QueryInterface self riid (some slot)).2.2 = (AddRef self).2 ∧
          (QueryInterface self riid (some slot)).2.2.m_cRef = (self.m_cRef + 1) % 2 ^ 32 ∧
          (self.m_cRef + 1 < 2 ^ 32 →
            (QueryInterface self riid (some slot)).2.2.m_cRef = self.m_cRef + 1)) ∧
      (¬ (riid = IID_IUnknown ∨ riid = IID_IDropTarget) →
        QueryInterface self riid (some slot) = (E_NOINTERFACE, some VoidPtr.null, self)) := by
  refine ⟨rfl, ?_, ?_, ?_⟩
  · by_cases h : riid = IID_IUnknown ∨ riid = IID_IDropTarget
    · simp [QueryInterface, h]
    · simp [QueryInterface, h]
  · intro h
    refine ⟨by simp [QueryInterface, h], by simp [QueryInterface, h], ?_, ?_⟩
    · simp only [QueryInterface, h, if_true, AddRef]
    · intro hlt
      simp only [QueryInterface, h, if_true, AddRef]
      exact Nat.mod_eq_of_lt hlt
  · intro h
    simp [QueryInterface, h]

/-- C8 at concrete inputs: on a new adapter the query for `IID_IDropTarget`
stores the adapter and raises the count from 1 to 2, the query for the id 5
returns `E_NOINTERFACE` and leaves the adapter as it is. -/
theorem C8_QueryInterface_witness :
    ((QueryInterface sampleTarget IID_IDropTarget (some (VoidPtr.other 99))).2.1 =
          some VoidPtr.this ∧
        (QueryInterface sampleTarget IID_IDropTarget (some (VoidPtr.other 99))).2.2 =
          (AddRef sampleTarget).2 ∧
        (QueryInterface sampleTarget IID_IDropTarget (some (VoidPtr.other 99))).2.2.m_cRef =
          (sampleTarget.m_cRef + 1) % 2 ^ 32 ∧
        (sampleTarget.m_cRef + 1 < 2 ^ 32 →
          (QueryInterface sampleTarget IID_IDropTarget (some (VoidPtr.other 99))).2.2.m_cRef =
            sampleTarget.m_cRef + 1)) ∧
      QueryInterface sampleTarget 5 (some (VoidPtr.other 99)) =
        (E_NOINTERFACE, some VoidPtr.null, sampleTarget) :=
  ⟨(C8_QueryInterface sampleTarget IID_IDropTarget (VoidPtr.other 99)).2.2.1 (by decide),
    (C8_QueryInterface sampleTarget 5 (VoidPtr.other 99)).2.2.2 (by decide)⟩

/-! ## Reference count -/

theorem AddRef_of_lt (self : GHOST_DropTargetWin32) (h : self.m_cRef + 1 < 2 ^ 32) :
    AddRef self = (self.m_cRef + 1, { self with m_cRef := self.m_cRef + 1 }) := by
  have hm : (self.m_cRef + 1) % ULONG_SIZE = self.m_cRef + 1 := Nat.mod_eq_of_lt h
  simp only [AddRef, hm]

theorem Release_of_two_le (self : GHOST_DropTargetWin32) (h2 : 2 ≤ self.m_cRef)
    (h : self.m_cRef < 2 ^ 32) :
    Release self = (self.m_cRef - 1, { self with m_cRef := self.m_cRef - 1 }) := by
  have hm : (self.m_cRef + ULONG_SIZE - 1) % ULONG_SIZE = self.m_cRef - 1 := by
    have e : self.m_cRef + ULONG_SIZE - 1 = (self.m_cRef - 1) + ULONG_SIZE := by
      simp only [ULONG_SIZE]; omega
    rw [e, Nat.add_mod_right]
    exact Nat.mod_eq_of_lt (by simp only [ULONG_SIZE]; omega)
  have hne : self.m_cRef - 1 ≠ 0 := by omega
  simp only [Release, hm, hne, if_false]

theorem AddRefs_of_lt (n : Nat) :
    ∀ self : GHOST_DropTargetWin32, self.m_cRef + n < 2 ^ 32 →
      (AddRefs n self).1 = (List.range n).map (fun i => self.m_cRef + 1 + i) ∧
        (AddRefs n self).2 = { self with m_cRef := self.m_cRef + n } := by
  induction n with
  | zero => intro self _; simp [AddRefs]
  | succ n ih =>
    intro self h
    have h1 : self.m_cRef + 1 < 2 ^ 32 := by omega
    have hstep := AddRef_of_lt self h1
    have hrec := ih { self with m_cRef := self.m_cRef + 1 } (by simp only; omega)
    simp only [AddRefs, hstep]
    refine ⟨?_, ?_⟩
    · rw [hrec.1, List.range_succ_eq_map, List.map_cons, List.map_map]
      congr 1
      apply List.map_congr_left
      intro i _
      simp only [Function.comp, Nat.succ_eq_add_one]
      omega
    · rw [hrec.2]
      simp only [Nat.add_assoc, Nat.add_comm 1 n]

theorem Releases_of_lt (n : Nat) :
    ∀ self : GHOST_DropTargetWin32, n < self.m_cRef → self.m_cRef < 2 ^ 32 →
      (Releases n self).1 = (List.range n).map (fun i => self.m_cRef - 1 - i) ∧
        (Releases n self).2 = { self with m_cRef := self.m_cRef - n } := by
  induction n with
  | zero => intro self _ _; simp [Releases]
  | succ n ih =>
    intro self h hlt
    have hstep := Release_of_two_le self (by omega) hlt
    have hrec := ih { self with m_cRef := self.m_cRef - 1 } (by simp only; omega)
      (by simp only; omega)
    simp only [Releases, hstep]
    refine ⟨?_, ?_⟩
    · rw [hrec.1, List.range_succ_eq_map, List.map_cons, List.map_map]
      refine congrArg (List.cons (self.m_cRef - 1)) ?_
      apply List.map_congr_left
      intro i _
      simp only [Function.comp, Nat.succ_eq_add_one]
      omega
    · rw [hrec.2]
      simp only [Nat.sub_sub, Nat.add_comm 1 n]

/-- C7, as the code has it: a new adapter holds the count 1, so for every `N`
with `N + 1` below `2 ^ 32`, `N` calls of `AddRef` return `2, ..., N + 1`, the
`N` calls of `Release` that follow return `N, ..., 1`, none of them runs
`delete this`, and the adapter is back in its initial state with count 1; the
destruction comes with one more `Release`, which returns 0 and runs
`delete this` once. -/
theorem C7_balanced_calls_keep_adapter (window : GHOST_WindowWin32) (system : GHOST_SystemWin32)
    (N : Nat) (hN : N + 1 < 2 ^ 32) :
    (AddRefs N (GHOST_DropTargetWin32.new window system)).1 =
        (List.range N).map (fun i => i + 2) ∧
      (Releases N (AddRefs N (GHOST_DropTargetWin32.new window system)).2).1 =
        (List.range N).map (fun i => N - i) ∧
      0 ∉ (Releases N (AddRefs N (GHOST_DropTargetWin32.new window system)).2).1 ∧
      (Releases N (AddRefs N (GHOST_DropTargetWin32.new window system)).2).2 =
        GHOST_DropTargetWin32.new window system ∧
      (GHOST_DropTargetWin32.new window system).m_cRef = 1 ∧
      (GHOST_DropTargetWin32.new window system).deleted = 0 ∧
      (Release (Releases N (AddRefs N (GHOST_DropTargetWin32.new window system)).2).2).1 = 0 ∧
      (Release (Releases N (AddRefs N (GHOST_DropTargetWin32.new window system)).2).2).2.deleted
        = 1 := by
  have ha := AddRefs_of_lt N (GHOST_DropTargetWin32.new window system)
    (by simp only [GHOST_DropTargetWin32.new]; omega)
  have hr := Releases_of_lt N (AddRefs N (GHOST_DropTargetWin32.new window system)).2
    (by rw [ha.2]; simp only [GHOST_DropTargetWin32.new]; omega)
    (by rw [ha.2]; simp only [GHOST_DropTargetWin32.new]; omega)
  have hret : (Releases N (AddRefs N (GHOST_DropTargetWin32.new window system)).2).1 =
      (List.range N).map (fun i => N - i) := by
    rw [hr.1, ha.2]
    apply List.map_congr_left
    intro i _
    simp only [GHOST_DropTargetWin32.new]
    omega
  have hstate : (Releases N (AddRefs N (GHOST_DropTargetWin32.new window system)).2).2 =
      GHOST_DropTargetWin32.new window system := by
    rw [hr.2, ha.2]
    simp [GHOST_DropTargetWin32.new]
  refine ⟨?_, hret, ?_, hstate, rfl, rfl, ?_, ?_⟩
  · rw [ha.1]
    apply List.map_congr_left
    intro i _
    simp only [GHOST_DropTargetWin32.new]
    omega
  · rw [hret]
    intro hmem
    rcases List.mem_map.mp hmem with ⟨i, hi, h0⟩
    have := List.mem_range.mp hi
    omega
  · rw [hstate]
    simp [Release, GHOST_DropTargetWin32.new]
  · rw [hstate]
    simp [Release, GHOST_DropTargetWin32.new]

/-- C7 at `N = 3` on the sample adapter. -/
theorem C7_balanced_calls_keep_adapter_witness :
    (AddRefs 3 sampleTarget).1 = [2, 3, 4] ∧
      (Releases 3 (AddRefs 3 sampleTarget).2).1 = [3, 2, 1] ∧
      (Releases 3 (AddRefs 3 sampleTarget).2).2 = sampleTarget ∧
      (Release (Releases 3 (AddRefs 3 sampleTarget).2).2).1 = 0 ∧
      (Release (Releases 3 (AddRefs 3 sampleTarget).2).2).2.deleted = 1 :=
  have h := C7_balanced_calls_keep_adapter sampleWindow sampleSystem 3 (by decide)
  ⟨h.1, h.2.1, h.2.2.2.1, h.2.2.2.2.2.2.1, h.2.2.2.2.2.2.2⟩

/-- C7 as stated fails at `N = 1`: after one `AddRef` and one `Release` on a new
adapter the `Release` has returned 1, not 0, and `delete this` has not run. -/
theorem C7_counterexample :
    (Releases 1 (AddRefs 1 sampleTarget).2).1 = [1] ∧
      (Releases 1 (AddRefs 1 sampleTarget).2).2.deleted = 0 ∧
      ¬ ((Releases 1 (AddRefs 1 sampleTarget).2).1 = [0] ∧
        (Releases 1 (AddRefs 1 sampleTarget).2).2.deleted = 1) := by
  decide

/-! ## File-list extraction: the storage medium -/

/-- C9, the code at the failing input: for a file list with zero paths whose
buffer the data object hands over, `getDropDataAsFilenames` returns null after
locking and unlocking the buffer, and `ReleaseStgMedium` is not among its
calls. -/
theorem C9_zero_paths_medium_not_released (P : Platform) :
    (fileDrop []).QueryGetData CF_HDROP = S_OK ∧
      (fileDrop []).GetData_HDROP = some [] ∧
      getDropDataAsFilenames P (fileDrop []) =
        (none, [OsCall.QueryGetData CF_HDROP, OsCall.GetData CF_HDROP, OsCall.GlobalLock,
          OsCall.GlobalUnlock]) ∧
      OsCall.GlobalUnlock ∈ (getDropDataAsFilenames P (fileDrop [])).2 ∧
      OsCall.ReleaseStgMedium ∉ (getDropDataAsFilenames P (fileDrop [])).2 := by
  refine ⟨rfl, rfl, rfl, ?_, ?_⟩
  · simp [getDropDataAsFilenames, fileDrop, DragQueryFileW_count]
  · simp [getDropDataAsFilenames, fileDrop, DragQueryFileW_count]

/-- The sibling path of C9: with at least one path both `GlobalUnlock` and
`ReleaseStgMedium` are called. -/
theorem getDropDataAsFilenames_releases_of_ne_nil (P : Platform) (pDataObject : IDataObject)
    (paths : List (List Nat)) (hq : pDataObject.QueryGetData CF_HDROP = S_OK)
    (hg : pDataObject.GetData_HDROP = some paths) (hne : paths ≠ []) :
    OsCall.GlobalUnlock ∈ (getDropDataAsFilenames P pDataObject).2 ∧
      OsCall.ReleaseStgMedium ∈ (getDropDataAsFilenames P pDataObject).2 := by
  have hlen : paths.length ≠ 0 := by
    intro h
    exact hne (List.length_eq_zero.mp h)
  simp [getDropDataAsFilenames, hq, hg, DragQueryFileW_count, hlen]

/-! ## Gestures: the stored payload type -/

theorem runTerminal_type (P : Platform) (self : GHOST_DropTargetWin32) (t : TerminalCall) :
    (runTerminal P self t).m_draggedObjectType = GHOST_kDragnDropTypeUnknown := by
  cases t <;> rfl

theorem runGesture_type (P : Platform) (self : GHOST_DropTargetWin32) (g : Gesture) :
    (runGesture P self g).m_draggedObjectType = GHOST_kDragnDropTypeUnknown :=
  runTerminal_type P _ g.terminal

theorem runGestures_type (P : Platform) (gs : List Gesture) :
    ∀ self : GHOST_DropTargetWin32,
      self.m_draggedObjectType = GHOST_kDragnDropTypeUnknown →
        (runGestures P self gs).m_draggedObjectType = GHOST_kDragnDropTypeUnknown := by
  induction gs with
  | nil => intro self h; exact h
  | cons g gs ih => intro self _; exact ih _ (runGesture_type P self g)

/-- C4: the stored payload type is unknown in a new adapter, after `DragLeave`
from any state, after `Drop` from any state and for any data object, and after
any sequence of gestures run on a new adapter, that is, at the start of the
gesture that comes next. -/
theorem C4_type_unknown_between_gestures (P : Platform) (window : GHOST_WindowWin32)
    (system : GHOST_SystemWin32) :
    (GHOST_DropTargetWin32.new window system).m_draggedObjectType = GHOST_kDragnDropTypeUnknown ∧
      (∀ self : GHOST_DropTargetWin32,
        (DragLeave self).target.m_draggedObjectType = GHOST_kDragnDropTypeUnknown) ∧
      (∀ (self : GHOST_DropTargetWin32) (pDataObject : IDataObject) (grfKeyState : Nat)
          (pt : POINTL) (dwEffect : Nat),
        (Drop P self pDataObject grfKeyState pt dwEffect).target.m_draggedObjectType =
          GHOST_kDragnDropTypeUnknown) ∧
      (∀ gs : List Gesture,
        (runGestures P (GHOST_DropTargetWin32.new window system) gs).m_draggedObjectType =
          GHOST_kDragnDropTypeUnknown) :=
  ⟨rfl, fun _ => rfl, fun _ _ _ _ _ => rfl, fun gs => runGestures_type P gs _ rfl⟩

/-! ## Gestures: the events pushed -/

theorem runOvers_spec (cs : List OverCall) :
    ∀ self : GHOST_DropTargetWin32,
      (runOvers self cs).m_system.events =
          self.m_system.events ++
            cs.map (fun c =>
              { eventType := GHOST_kEventDraggingUpdated
                draggedObjectType := self.m_draggedObjectType
                window := self.m_window.hWnd
                mouseX := c.pt.x
                mouseY := c.pt.y
                data := none }) ∧
        (runOvers self cs).m_draggedObjectType = self.m_draggedObjectType ∧
        (runOvers self cs).m_window.hWnd = self.m_window.hWnd := by
  induction cs with
  | nil => intro self; simp [runOvers]
  | cons c cs ih =>
    intro self
    have h := ih (DragOver (flagSetByApplication self c.canAccept) c.grfKeyState c.pt
      c.dwEffect).target
    simp only [runOvers]
    refine ⟨?_, ?_, ?_⟩
    · rw [h.1]
      simp [DragOver, flagSetByApplication, GHOST_SystemWin32.pushDragDropEvent,
        GHOST_WindowWin32.setAcceptDragOperation]
    · rw [h.2.1]
      rfl
    · rw [h.2.2]
      rfl

/-- The events of a gesture, written out. -/
theorem gestureEvents_eq (P : Platform) (self : GHOST_DropTargetWin32) (g : Gesture) :
    (runGesture P self g).m_system.events = self.m_system.events ++ gestureEvents P self g ∧
      gestureEvents P self g =
        ({ eventType := GHOST_kEventDraggingEntered
           draggedObjectType := (getGhostType g.pDataObject).1
           window := self.m_window.hWnd
           mouseX := g.pt.x
           mouseY := g.pt.y
           data := none } : GHOST_EventDragnDrop) ::
          (g.overs.map (fun c =>
              ({ eventType := GHOST_kEventDraggingUpdated
                 draggedObjectType := (getGhostType g.pDataObject).1
                 window := self.m_window.hWnd
                 mouseX := c.pt.x
                 mouseY := c.pt.y
                 data := none } : GHOST_EventDragnDrop)) ++
            (match g.terminal with
              | TerminalCall.leave =>
                [{ eventType := GHOST_kEventDraggingExited
                   draggedObjectType := (getGhostType g.pDataObject).1
                   window := self.m_window.hWnd
                   mouseX := 0
                   mouseY := 0
                   data := none }]
              | TerminalCall.drop _ pDataObject _ pt _ =>
                match (getGhostData P pDataObject).1 with
                | none => []
                | some d =>
                  [{ eventType := GHOST_kEventDraggingDropDone
                     draggedObjectType := (getGhostType g.pDataObject).1
                     window := self.m_window.hWnd
                     mouseX := pt.x
                     mouseY := pt.y
                     data := some d }])) := by
  have ho := runOvers_spec g.overs (DragEnter self g.pDataObject g.grfKeyState g.pt g.dwEffect).target
  have hev : (runGesture P self g).m_system.events = self.m_system.events ++
      (({ eventType := GHOST_kEventDraggingEntered
          draggedObjectType := (getGhostType g.pDataObject).1
          window := self.m_window.hWnd
          mouseX := g.pt.x
          mouseY := g.pt.y
          data := none } : GHOST_EventDragnDrop) ::
        (g.overs.map (fun c =>
            ({ eventType := GHOST_kEventDraggingUpdated
               draggedObjectType := (getGhostType g.pDataObject).1
               window := self.m_window.hWnd
               mouseX := c.pt.x
               mouseY := c.pt.y
               data := none } : GHOST_EventDragnDrop)) ++
          (match g.terminal with
            | TerminalCall.leave =>
              [{ eventType := GHOST_kEventDraggingExited
                 draggedObjectType := (getGhostType g.pDataObject).1
                 window := self.m_window.hWnd
                 mouseX := 0
                 mouseY := 0
                 data := none }]
            | TerminalCall.drop _ pDataObject _ pt _ =>
              match (getGhostData P pDataObject).1 with
              | none => []
              | some d =>
                [{ eventType := GHOST_kEventDraggingDropDone
                   draggedObjectType := (getGhostType g.pDataObject).1
                   window := self.m_window.hWnd
                   mouseX := pt.x
                   mouseY := pt.y
                   data := some d }]))) := by
    unfold runGesture
    cases hterm : g.terminal with
    | leave =>
      simp only [runTerminal, DragLeave, GHOST_SystemWin32.pushDragDropEvent]
      rw [ho.1, ho.2.1, ho.2.2]
      simp [DragEnter, GHOST_SystemWin32.pushDragDropEvent,
        GHOST_WindowWin32.setAcceptDragOperation]
    | drop canAccept pDataObject grfKeyState pt dwEffect =>
      simp only [runTerminal, Drop, flagSetByApplication,
        GHOST_WindowWin32.setAcceptDragOperation]
      cases hd : (getGhostData P pDataObject).1 with
      | none =>
        simp only []
        rw [ho.1]
        simp [DragEnter, GHOST_SystemWin32.pushDragDropEvent,
          GHOST_WindowWin32.setAcceptDragOperation]
      | some d =>
        simp only [GHOST_SystemWin32.pushDragDropEvent]
        rw [ho.1, ho.2.1, ho.2.2]
        simp [DragEnter, GHOST_SystemWin32.pushDragDropEvent,
          GHOST_WindowWin32.setAcceptDragOperation]
  refine ⟨?_, ?_⟩
  · rw [hev]
    unfold gestureEvents pushedBetween
    rw [hev]
    simp
  · unfold gestureEvents pushedBetween
    rw [hev]
    simp

/-- C3, as the code has it: a gesture pushes exactly one
`GHOST_kEventDraggingEntered` event, whatever the number of `DragOver` calls;
it pushes exactly one terminal event when it ends with `DragLeave` or with a
`Drop` whose extraction returns a payload, and no terminal event when it ends
with a `Drop` whose extraction returns null. `DragEnter`, `DragOver` and
`DragLeave` push one event per call; `Drop` pushes one event when
`getGhostData` returns a payload and none otherwise. -/
theorem C3_gesture_event_counts (P : Platform) (self : GHOST_DropTargetWin32) (g : Gesture) :
    (runGesture P self g).m_system.events = self.m_system.events ++ gestureEvents P self g ∧
      countEntered (gestureEvents P self g) = 1 ∧
      countTerminal (gestureEvents P self g) =
        (if terminalPushes P g.terminal = true then 1 else 0) ∧
      (gestureEvents P self g).length =
        1 + g.overs.length + (if terminalPushes P g.terminal = true then 1 else 0) ∧
      (∀ (s : GHOST_DropTargetWin32) (pDataObject : IDataObject) (grfKeyState : Nat)
          (pt : POINTL) (dwEffect : Nat),
        (pushedBetween s (DragEnter s pDataObject grfKeyState pt dwEffect).target).length = 1) ∧
      (∀ (s : GHOST_DropTargetWin32) (grfKeyState : Nat) (pt : POINTL) (dwEffect : Nat),
        (pushedBetween s (DragOver s grfKeyState pt dwEffect).target).length = 1) ∧
      (∀ s : GHOST_DropTargetWin32, (pushedBetween s (DragLeave s).target).length = 1) ∧
      (∀ (s : GHOST_DropTargetWin32) (pDataObject : IDataObject) (grfKeyState : Nat)
          (pt : POINTL) (dwEffect : Nat),
        (pushedBetween s (Drop P s pDataObject grfKeyState pt dwEffect).target).length =
          (if (getGhostData P pDataObject).1.isSome = true then 1 else 0)) := by
  have h := gestureEvents_eq P self g
  refine ⟨h.1, ?_, ?_, ?_, ?_, ?_, ?_, ?_⟩
  · rw [h.2]
    unfold countEntered
    cases hterm : g.terminal with
    | leave => simp [List.countP_cons, List.countP_append, List.countP_map, List.countP_eq_zero]
    | drop canAccept pDataObject grfKeyState pt dwEffect =>
      cases hd : (getGhostData P pDataObject).1 <;>
        simp [List.countP_cons, List.countP_append, List.countP_map, List.countP_eq_zero, hd]
  · rw [h.2]
    unfold countTerminal
    cases hterm : g.terminal with
    | leave =>
      simp [List.countP_cons, List.countP_append, List.countP_map, List.countP_eq_zero,
        terminalPushes]
    | drop canAccept pDataObject grfKeyState pt dwEffect =>
      cases hd : (getGhostData P pDataObject).1 <;>
        simp [List.countP_cons, List.countP_append, List.countP_map, List.countP_eq_zero,
          terminalPushes, hd]
  · rw [h.2]
    cases hterm : g.terminal with
    | leave => simp [terminalPushes]; omega
    | drop canAccept pDataObject grfKeyState pt dwEffect =>
      cases hd : (getGhostData P pDataObject).1 <;> simp [terminalPushes, hd] <;> omega
  · intro s pDataObject grfKeyState pt dwEffect
    simp [pushedBetween, DragEnter, GHOST_SystemWin32.pushDragDropEvent]
  · intro s grfKeyState pt dwEffect
    simp [pushedBetween, DragOver, GHOST_SystemWin32.pushDragDropEvent]
  · intro s
    simp [pushedBetween, DragLeave, GHOST_SystemWin32.pushDragDropEvent]
  · intro s pDataObject grfKeyState pt dwEffect
    unfold pushedBetween Drop
    cases hd : (getGhostData P pDataObject).1 <;>
      simp [GHOST_SystemWin32.pushDragDropEvent]

/-- C3 as stated fails on the gesture `DragEnter`, `Drop` of a data object that
offers no format: the gesture pushes the entered event and nothing else, so it
has no terminal event, and the `Drop` call pushes no event at all. -/
theorem C3_counterexample :
    gestureEvents asciiPlatform sampleTarget unknownDropGesture =
        [{ eventType := GHOST_kEventDraggingEntered
           draggedObjectType := GHOST_kDragnDropTypeUnknown
           window := 7
           mouseX := 10
           mouseY := 20
           data := none }] ∧
      ¬ (countTerminal (gestureEvents asciiPlatform sampleTarget unknownDropGesture) = 1) ∧
      ¬ ((pushedBetween sampleTarget
        (Drop asciiPlatform sampleTarget noFormats 0 { x := 10, y := 20 }
          DROPEFFECT_COPY).target).length = 1) := by
  decide

/-! ## Gestures: the type tag of the drop event -/

theorem getDropDataAsString_text_some (P : Platform) (pDataObject : IDataObject)
    (d : GHOST_TDropData) (h : (getDropDataAsString_text P pDataObject).1 = some d) :
    ∃ s, d = GHOST_TDropData.string s := by
  unfold getDropDataAsString_text at h
  split at h
  · split at h
    · split at h
      · exact ⟨_, (Option.some.inj h).symm⟩
      · simp at h
    · simp at h
  · simp at h

theorem getDropDataAsString_some (P : Platform) (pDataObject : IDataObject)
    (d : GHOST_TDropData) (h : (getDropDataAsString P pDataObject).1 = some d) :
    ∃ s, d = GHOST_TDropData.string s := by
  unfold getDropDataAsString at h
  split at h
  · split at h
    · split at h
      · simp at h
      · exact ⟨_, (Option.some.inj h).symm⟩
    · exact getDropDataAsString_text_some P pDataObject d h
  · exact getDropDataAsString_text_some P pDataObject d h

theorem getDropDataAsFilenames_some (P : Platform) (pDataObject : IDataObject)
    (d : GHOST_TDropData) (h : (getDropDataAsFilenames P pDataObject).1 = some d) :
    ∃ a, d = GHOST_TDropData.stringArray a := by
  unfold getDropDataAsFilenames at h
  split at h
  · split at h
    · simp only at h
      split at h
      · simp at h
      · exact ⟨_, (Option.some.inj h).symm⟩
    · simp at h
  · simp at h

/-- A payload returned by `getGhostData` has the variant of the type that
`getGhostType` returns for the same data object, which is then not unknown. -/
theorem getGhostData_some (P : Platform) (pDataObject : IDataObject) (d : GHOST_TDropData)
    (h : (getGhostData P pDataObject).1 = some d) :
    ((getGhostType pDataObject).1 = GHOST_kDragnDropTypeString ∧
        ∃ s, d = GHOST_TDropData.string s) ∨
      ((getGhostType pDataObject).1 = GHOST_kDragnDropTypeFilenames ∧
        ∃ a, d = GHOST_TDropData.stringArray a) := by
  unfold getGhostData at h
  cases ht : (getGhostType pDataObject).1 with
  | GHOST_kDragnDropTypeUnknown => simp [ht] at h
  | GHOST_kDragnDropTypeBitmap => simp [ht] at h
  | GHOST_kDragnDropTypeString =>
    simp only [ht] at h
    exact Or.inl ⟨rfl, getDropDataAsString_some P pDataObject d h⟩
  | GHOST_kDragnDropTypeFilenames =>
    simp only [ht] at h
    exact Or.inr ⟨rfl, getDropDataAsFilenames_some P pDataObject d h⟩

/-- C10: in a gesture `DragEnter(h)`, any number of `DragOver` calls,
`Drop(h)` on the same data object `h`, every `GHOST_kEventDraggingDropDone`
event pushed carries the type `getGhostType h`, which is not the unknown type,
and a payload of that variant: a string for the string type, a string array
for the file-names type. The tag is the state stored at `DragEnter`: a `Drop`
on a new adapter, with no `DragEnter` before it, pushes a non-null payload
tagged unknown. -/
theorem C10_drop_event_tag (P : Platform) (self : GHOST_DropTargetWin32) (h : IDataObject)
    (enterKeyState : Nat) (enterPt : POINTL) (enterEffect : Nat) (overs : List OverCall)
    (canAccept : Bool) (dropKeyState : Nat) (dropPt : POINTL) (dropEffect : Nat) :
    (∀ ev ∈ gestureEvents P self
          { pDataObject := h
            grfKeyState := enterKeyState
            pt := enterPt
            dwEffect := enterEffect
            overs := overs
            terminal := TerminalCall.drop canAccept h dropKeyState dropPt dropEffect },
        ev.eventType = GHOST_kEventDraggingDropDone →
          ev.draggedObjectType = (getGhostType h).1 ∧
            ev.draggedObjectType ≠ GHOST_kDragnDropTypeUnknown ∧
            ((ev.draggedObjectType = GHOST_kDragnDropTypeString ∧
                ∃ s, ev.data = some (GHOST_TDropData.string s)) ∨
              (ev.draggedObjectType = GHOST_kDragnDropTypeFilenames ∧
                ∃ a, ev.data = some (GHOST_TDropData.stringArray a)))) ∧
      (∃ ev ∈ pushedBetween sampleTarget
          (Drop asciiPlatform sampleTarget (fileDrop [[97]]) 0 { x := 5, y := 6 }
            DROPEFFECT_COPY).target,
        ev.eventType = GHOST_kEventDraggingDropDone ∧ ev.data ≠ none ∧
          ev.draggedObjectType = GHOST_kDragnDropTypeUnknown) := by
  refine ⟨?_, ?_⟩
  · intro ev hev hkind
    rw [(gestureEvents_eq P self _).2] at hev
    simp only [List.mem_cons, List.mem_append, List.mem_map] at hev
    rcases hev with hev | ⟨c, _, hev⟩ | hev
    · rw [hev] at hkind
      simp at hkind
    · rw [← hev] at hkind
      simp at hkind
    · cases hd : (getGhostData P h).1 with
      | none => simp [hd] at hev
      | some d =>
        simp only [hd, List.mem_singleton] at hev
        have hv := getGhostData_some P h d hd
        subst hev
        simp only
        rcases hv with ⟨ht, s, hs⟩ | ⟨ht, a, ha⟩
        · refine ⟨trivial, ?_, Or.inl ⟨ht, s, by rw [hs]⟩⟩
          rw [ht]
          decide
        · refine ⟨trivial, ?_, Or.inr ⟨ht, a, by rw [ha]⟩⟩
          rw [ht]
          decide
  · refine ⟨{ eventType := GHOST_kEventDraggingDropDone
              draggedObjectType := GHOST_kDragnDropTypeUnknown
              window := 7
              mouseX := 5
              mouseY := 6
              data := some (GHOST_TDropData.stringArray { count := 1, strings := [some [97]] }) },
      ?_, rfl, ?_, rfl⟩
    · decide
    · simp

/-- C10 on the sample file gesture: its drop event exists, is tagged with the
file-names type and carries the string array holding the one path. -/
theorem C10_drop_event_tag_witness :
    ({ eventType := GHOST_kEventDraggingDropDone
       draggedObjectType := GHOST_kDragnDropTypeFilenames
       window := 7
       mouseX := 5
       mouseY := 6
       data := some (GHOST_TDropData.stringArray { count := 1, strings := [some [97]] }) } :
        GHOST_EventDragnDrop) ∈ gestureEvents asciiPlatform sampleTarget fileDropGesture ∧
      GHOST_kDragnDropTypeFilenames = (getGhostType (fileDrop [[97]])).1 :=
  ⟨by decide,
    ((C10_drop_event_tag asciiPlatform sampleTarget (fileDrop [[97]]) 0 { x := 1, y := 2 }
      DROPEFFECT_COPY
      [⟨true, 0, { x := 3, y := 4 }, DROPEFFECT_COPY⟩,
        ⟨false, 0, { x := 5, y := 6 }, DROPEFFECT_COPY⟩]
      true 0 { x := 5, y := 6 } DROPEFFECT_COPY).1
      { eventType := GHOST_kEventDraggingDropDone
        draggedObjectType := GHOST_kDragnDropTypeFilenames
        window := 7
        mouseX := 5
        mouseY := 6
        data := some (GHOST_TDropData.stringArray { count := 1, strings := [some [97]] }) }
      (by decide) rfl).1⟩

/-! ## File-list extraction: the payload -/

end GHOST
